import Mathlib

/-!
Verification of the payment-uz server's codec and verification helpers
(`src/server.py`) against its natural-language specification.

Modelling conventions:
* A Python `str` is a `List Char` (a sequence of Unicode code points), and
  `bytes` is a `List Nat` with every element `< 256`.
* Python `float` amounts are modelled as exact rationals `ℚ`; every concrete
  amount used in a theorem below is a dyadic rational whose float evaluation
  in the source is exact, so the model and the source agree at those points.
* Library calls (`base64.b64encode`/`b64decode`, `str.encode`/`bytes.decode`,
  `hashlib.md5`/`sha256`, `str.split`, `in`) are given explicit executable
  models below, faithful to CPython's behaviour on the inputs the claims use.
-/

/-- A Python `str`: a sequence of Unicode code points. -/
abbrev Str := List Char

/-- Shorthand turning a Lean string literal into the `Str` model. -/
def str (s : String) : Str := s.data

/-- Python `int(q)` on a real value: truncation toward zero. -/
def pyInt (q : ℚ) : ℤ := if 0 ≤ q then ⌊q⌋ else -⌊-q⌋

/-- Python `round(q)` to an integer: round half to even (banker's rounding). -/
def pyRound (q : ℚ) : ℤ :=
  if q - ⌊q⌋ < 1/2 then ⌊q⌋
  else if 1/2 < q - ⌊q⌋ then ⌊q⌋ + 1
  else if Even ⌊q⌋ then ⌊q⌋ else ⌊q⌋ + 1

/-- Python `str(n)` for an `int`: decimal digits, with a leading minus sign
when negative.  Lean's `toString` on `Int` has the same rendering. -/
def intStr (n : ℤ) : Str := (toString n).data

/-- Python `s.split(" ")`: split at every single space, keeping empty pieces
(`"a  b".split(" ") == ["a", "", "b"]`, `"".split(" ") == [""]`). -/
def splitSpace : Str → List Str
  | [] => [[]]
  | c :: rest =>
    if c = ' ' then [] :: splitSpace rest
    else
      match splitSpace rest with
      | [] => [[c]]
      | g :: gs => (c :: g) :: gs

/-- Python `needle in hay` on strings: contiguous substring test. -/
def strContains (hay needle : Str) : Bool :=
  needle.isPrefixOf hay ||
    match hay with
    | [] => false
    | _ :: t => strContains t needle

/-! ### Base64 (standard alphabet, with padding)

Models CPython's `base64.b64encode` and `base64.b64decode` (default
`validate=False`).  The decoder follows `binascii.a2b_base64` in non-strict
mode: characters outside the alphabet are skipped; a padding character that
completes a quad (two data characters seen and enough accumulated pads)
terminates decoding successfully, discarding the remainder; a dangling
partial quad at the end of input is an error (`Incorrect padding`); and —
before any of that — a `str` argument is encoded as ASCII, so any character
above `U+007F` raises (`none` in the model). -/

/-- The value of a standard-alphabet base64 character. -/
def b64val (c : Char) : Option Nat :=
  if 'A' ≤ c ∧ c ≤ 'Z' then some (c.toNat - 'A'.toNat)
  else if 'a' ≤ c ∧ c ≤ 'z' then some (c.toNat - 'a'.toNat + 26)
  else if '0' ≤ c ∧ c ≤ '9' then some (c.toNat - '0'.toNat + 52)
  else if c = '+' then some 62
  else if c = '/' then some 63
  else none

/-- The standard-alphabet base64 character for a 6-bit value. -/
def b64chr (n : Nat) : Char :=
  ("ABCDEFGHIJKLMNOPQRSTUVWXYZabcdefghijklmnopqrstuvwxyz0123456789+/").data.getD n 'A'

/-- Model of `base64.b64encode`: bytes to base64 text, 3 bytes per 4 characters,
padded with `=`. -/
def b64encode : List Nat → Str
  | [] => []
  | [a] => [b64chr (a / 4), b64chr (a % 4 * 16), '=', '=']
  | [a, b] => [b64chr (a / 4), b64chr (a % 4 * 16 + b / 16), b64chr (b % 16 * 4), '=']
  | a :: b :: c :: rest =>
    b64chr (a / 4) :: b64chr (a % 4 * 16 + b / 16) ::
      b64chr (b % 16 * 4 + c / 64) :: b64chr (c % 64) :: b64encode rest

/-- State machine of CPython `binascii.a2b_base64` in non-strict mode:
`quad` is the position inside the current 4-character group, `left` the bits
carried from the previous character, `pads` the running count of `=` seen at
`quad ≥ 2` since the last data character, `acc` the bytes emitted so far.
A data character emits a byte at positions 1–3 and resets `pads`; other
characters are skipped; `=` at `quad ≥ 2` terminates successfully once the
group is complete; leftover `quad ≠ 0` at the end of input is an error. -/
def b64loop : Str → Nat → Nat → Nat → List Nat → Option (List Nat)
  | [], quad, _, _, acc => if quad = 0 then some acc else none
  | c :: rest, quad, left, pads, acc =>
    if c = '=' then
      if 2 ≤ quad then
        if 4 ≤ quad + pads + 1 then some acc
        else b64loop rest quad left (pads + 1) acc
      else b64loop rest quad left pads acc
    else
      match b64val c with
      | none => b64loop rest quad left pads acc
      | some v =>
        if quad = 0 then b64loop rest 1 v 0 acc
        else if quad = 1 then b64loop rest 2 (v % 16) 0 (acc ++ [left * 4 + v / 16])
        else if quad = 2 then b64loop rest 3 (v % 4) 0 (acc ++ [left * 16 + v / 4])
        else b64loop rest 0 0 0 (acc ++ [left * 64 + v])

/-- Model of `base64.b64decode` on a `str` argument with the default
`validate=False`: the ASCII pre-check of `str.encode('ascii')`, then the
`a2b_base64` state machine. -/
def b64decode (s : Str) : Option (List Nat) :=
  if s.any (fun c => 128 ≤ c.toNat) then none
  else b64loop s 0 0 0 []

/-! ### UTF-8 -/

/-- Model of `str.encode()` on one code point: its UTF-8 bytes. -/
def utf8char (c : Char) : List Nat :=
  if c.toNat < 0x80 then [c.toNat]
  else if c.toNat < 0x800 then [0xC0 + c.toNat / 64, 0x80 + c.toNat % 64]
  else if c.toNat < 0x10000 then
    [0xE0 + c.toNat / 4096, 0x80 + c.toNat / 64 % 64, 0x80 + c.toNat % 64]
  else
    [0xF0 + c.toNat / 262144, 0x80 + c.toNat / 4096 % 64, 0x80 + c.toNat / 64 % 64,
      0x80 + c.toNat % 64]

/-- Model of `str.encode()`: the UTF-8 bytes of a string. -/
def utf8encode (s : Str) : List Nat := s.flatMap utf8char

/-- Model of `bytes.decode()`: strict UTF-8 decoding; rejects overlong forms,
surrogates, truncated sequences, and values above `U+10FFFF`; `none` on
failure.  Written with four-deep list patterns (the short arms inline the
decoding of the remaining zero, one or two bytes) so that recursion stays
structural. -/
def utf8decode : List Nat → Option Str
  | [] => some []
  | [b1] =>
    if b1 < 0x80 then some [Char.ofNat b1] else none
  | [b1, b2] =>
    if b1 < 0x80 then (utf8decode [b2]).map (Char.ofNat b1 :: ·)
    else if b1 < 0xC2 then none
    else if b1 < 0xE0 then
      if 0x80 ≤ b2 ∧ b2 < 0xC0 then some [Char.ofNat ((b1 - 0xC0) * 64 + (b2 - 0x80))]
      else none
    else none
  | [b1, b2, b3] =>
    if b1 < 0x80 then (utf8decode [b2, b3]).map (Char.ofNat b1 :: ·)
    else if b1 < 0xC2 then none
    else if b1 < 0xE0 then
      if 0x80 ≤ b2 ∧ b2 < 0xC0 then
        (utf8decode [b3]).map (Char.ofNat ((b1 - 0xC0) * 64 + (b2 - 0x80)) :: ·)
      else none
    else if b1 < 0xF0 then
      if (0x80 ≤ b2 ∧ b2 < 0xC0) ∧ (0x80 ≤ b3 ∧ b3 < 0xC0) ∧
          0x800 ≤ (b1 - 0xE0) * 4096 + (b2 - 0x80) * 64 + (b3 - 0x80) ∧
          ¬(0xD800 ≤ (b1 - 0xE0) * 4096 + (b2 - 0x80) * 64 + (b3 - 0x80) ∧
            (b1 - 0xE0) * 4096 + (b2 - 0x80) * 64 + (b3 - 0x80) < 0xE000) then
        some [Char.ofNat ((b1 - 0xE0) * 4096 + (b2 - 0x80) * 64 + (b3 - 0x80))]
      else none
    else none
  | b1 :: b2 :: b3 :: b4 :: rest =>
    if b1 < 0x80 then (utf8decode (b2 :: b3 :: b4 :: rest)).map (Char.ofNat b1 :: ·)
    else if b1 < 0xC2 then none
    else if b1 < 0xE0 then
      if 0x80 ≤ b2 ∧ b2 < 0xC0 then
        (utf8decode (b3 :: b4 :: rest)).map (Char.ofNat ((b1 - 0xC0) * 64 + (b2 - 0x80)) :: ·)
      else none
    else if b1 < 0xF0 then
      if (0x80 ≤ b2 ∧ b2 < 0xC0) ∧ (0x80 ≤ b3 ∧ b3 < 0xC0) ∧
          0x800 ≤ (b1 - 0xE0) * 4096 + (b2 - 0x80) * 64 + (b3 - 0x80) ∧
          ¬(0xD800 ≤ (b1 - 0xE0) * 4096 + (b2 - 0x80) * 64 + (b3 - 0x80) ∧
            (b1 - 0xE0) * 4096 + (b2 - 0x80) * 64 + (b3 - 0x80) < 0xE000) then
        (utf8decode (b4 :: rest)).map
          (Char.ofNat ((b1 - 0xE0) * 4096 + (b2 - 0x80) * 64 + (b3 - 0x80)) :: ·)
      else none
    else if b1 < 0xF5 then
      if (0x80 ≤ b2 ∧ b2 < 0xC0) ∧ (0x80 ≤ b3 ∧ b3 < 0xC0) ∧ (0x80 ≤ b4 ∧ b4 < 0xC0) ∧
          0x10000 ≤ (b1 - 0xF0) * 262144 + (b2 - 0x80) * 4096 + (b3 - 0x80) * 64 + (b4 - 0x80) ∧
          (b1 - 0xF0) * 262144 + (b2 - 0x80) * 4096 + (b3 - 0x80) * 64 + (b4 - 0x80) < 0x110000 then
        (utf8decode rest).map
          (Char.ofNat
            ((b1 - 0xF0) * 262144 + (b2 - 0x80) * 4096 + (b3 - 0x80) * 64 + (b4 - 0x80)) :: ·)
      else none
    else none

/-! ### Hex rendering and 32-bit helpers -/

/-- Lowercase hexadecimal digit. -/
def hexDigit (n : Nat) : Char := ("0123456789abcdef").data.getD n '0'

/-- Two lowercase hex digits of a byte. -/
def byteHex (b : Nat) : Str := [hexDigit (b / 16), hexDigit (b % 16)]

/-- Lowercase hex of a byte sequence (`bytes.hex()` / `hexdigest`). -/
def bytesHex (bs : List Nat) : Str := bs.flatMap byteHex

/-- Left rotation of a 32-bit `Nat` (a value below `2^32`). -/
def rotl32 (x s : Nat) : Nat := (x <<< s) % 4294967296 ||| x >>> (32 - s)

/-- Right rotation of a 32-bit `Nat` (a value below `2^32`). -/
def rotr32 (x s : Nat) : Nat := x >>> s ||| (x <<< (32 - s)) % 4294967296

/-- Complement of a 32-bit `Nat`. -/
def not32 (x : Nat) : Nat := x ^^^ 4294967295

/-- The four little-endian bytes of a 32-bit word. -/
def le32bytes (w : Nat) : List Nat := [w % 256, w / 256 % 256, w / 65536 % 256, w / 16777216 % 256]

/-- The eight little-endian bytes of a 64-bit value. -/
def le64bytes (n : Nat) : List Nat := (List.range 8).map fun i => n / 256 ^ i % 256

/-- The eight big-endian bytes of a 64-bit value. -/
def be64bytes (n : Nat) : List Nat := (List.range 8).map fun i => n / 256 ^ (7 - i) % 256

/-- Merkle–Damgård padding: `0x80`, zeros to 56 mod 64, then the 8-byte bit
length (little-endian for MD5, big-endian for SHA-256). -/
def mdPad (le : Bool) (msg : List Nat) : List Nat :=
  let z := (119 - msg.length % 64) % 64
  msg ++ [0x80] ++ List.replicate z 0 ++
    (if le then le64bytes (msg.length * 8) else be64bytes (msg.length * 8))

/-! ### MD5 (RFC 1321) -/

/-- The 64 MD5 round constants `⌊|sin(i+1)| · 2³²⌋`. -/
def md5K : List Nat :=
  [3614090360, 3905402710, 606105819, 3250441966, 4118548399, 1200080426, 2821735955, 4249261313,
   1770035416, 2336552879, 4294925233, 2304563134, 1804603682, 4254626195, 2792965006, 1236535329,
   4129170786, 3225465664, 643717713, 3921069994, 3593408605, 38016083, 3634488961, 3889429448,
   568446438, 3275163606, 4107603335, 1163531501, 2850285829, 4243563512, 1735328473, 2368359562,
   4294588738, 2272392833, 1839030562, 4259657740, 2763975236, 1272893353, 4139469664, 3200236656,
   681279174, 3936430074, 3572445317, 76029189, 3654602809, 3873151461, 530742520, 3299628645,
   4096336452, 1126891415, 2878612391, 4237533241, 1700485571, 2399980690, 4293915773, 2240044497,
   1873313359, 4264355552, 2734768916, 1309151649, 4149444226, 3174756917, 718787259, 3951481745]

/-- The 64 MD5 per-round left-rotation amounts. -/
def md5S : List Nat :=
  [7, 12, 17, 22, 7, 12, 17, 22, 7, 12, 17, 22, 7, 12, 17, 22,
   5, 9, 14, 20, 5, 9, 14, 20, 5, 9, 14, 20, 5, 9, 14, 20,
   4, 11, 16, 23, 4, 11, 16, 23, 4, 11, 16, 23, 4, 11, 16, 23,
   6, 10, 15, 21, 6, 10, 15, 21, 6, 10, 15, 21, 6, 10, 15, 21]

/-- One MD5 compression step. -/
def md5step (M : List Nat) (st : Nat × Nat × Nat × Nat) (i : Nat) : Nat × Nat × Nat × Nat :=
  let (a, b, c, d) := st
  let f :=
    if i < 16 then b &&& c ||| not32 b &&& d
    else if i < 32 then d &&& b ||| not32 d &&& c
    else if i < 48 then b ^^^ c ^^^ d
    else c ^^^ (b ||| not32 d)
  let g :=
    if i < 16 then i
    else if i < 32 then (5 * i + 1) % 16
    else if i < 48 then (3 * i + 5) % 16
    else 7 * i % 16
  let rot := rotl32 ((a + f + md5K.getD i 0 + M.getD g 0) % 4294967296) (md5S.getD i 0)
  (d, (b + rot) % 4294967296, b, c)

/-- MD5 compression of one 64-byte block into the running state. -/
def md5block (st : Nat × Nat × Nat × Nat) (block : List Nat) : Nat × Nat × Nat × Nat :=
  let M := (List.range 16).map fun j =>
    block.getD (4 * j) 0 + block.getD (4 * j + 1) 0 * 256 +
      block.getD (4 * j + 2) 0 * 65536 + block.getD (4 * j + 3) 0 * 16777216
  let (a0, b0, c0, d0) := st
  let (a, b, c, d) := (List.range 64).foldl (md5step M) (a0, b0, c0, d0)
  ((a0 + a) % 4294967296, (b0 + b) % 4294967296, (c0 + c) % 4294967296, (d0 + d) % 4294967296)

/-- Model of `hashlib.md5(msg).hexdigest()`: the lowercase-hex MD5 digest of a byte
sequence. -/
def md5hex (msg : List Nat) : Str :=
  let padded := mdPad true msg
  let st := (List.range (padded.length / 64)).foldl
    (fun st bi => md5block st ((padded.drop (64 * bi)).take 64))
    (1732584193, 4023233417, 2562383102, 271733878)
  let (a, b, c, d) := st
  bytesHex (le32bytes a ++ le32bytes b ++ le32bytes c ++ le32bytes d)

/-! ### SHA-256 (FIPS 180-4) -/

/-- The 64 SHA-256 round constants. -/
def sha256K : List Nat :=
  [1116352408, 1899447441, 3049323471, 3921009573, 961987163, 1508970993, 2453635748, 2870763221,
   3624381080, 310598401, 607225278, 1426881987, 1925078388, 2162078206, 2614888103, 3248222580,
   3835390401, 4022224774, 264347078, 604807628, 770255983, 1249150122, 1555081692, 1996064986,
   2554220882, 2821834349, 2952996808, 3210313671, 3336571891, 3584528711, 113926993, 338241895,
   666307205, 773529912, 1294757372, 1396182291, 1695183700, 1986661051, 2177026350, 2456956037,
   2730485921, 2820302411, 3259730800, 3345764771, 3516065817, 3600352804, 4094571909, 275423344,
   430227734, 506948616, 659060556, 883997877, 958139571, 1322822218, 1537002063, 1747873779,
   1955562222, 2024104815, 2227730452, 2361852424, 2428436474, 2756734187, 3204031479, 3329325298]

/-- Extend the 16 message words to the 64-word SHA-256 schedule. -/
def sha256extend : Nat → List Nat → List Nat
  | 0, w => w
  | n + 1, w =>
    let i := w.length
    let s0 := rotr32 (w.getD (i - 15) 0) 7 ^^^ rotr32 (w.getD (i - 15) 0) 18 ^^^ w.getD (i - 15) 0 >>> 3
    let s1 := rotr32 (w.getD (i - 2) 0) 17 ^^^ rotr32 (w.getD (i - 2) 0) 19 ^^^ w.getD (i - 2) 0 >>> 10
    sha256extend n (w ++ [(w.getD (i - 16) 0 + s0 + w.getD (i - 7) 0 + s1) % 4294967296])

/-- One SHA-256 compression step. -/
def sha256step (w : List Nat) (st : Nat × Nat × Nat × Nat × Nat × Nat × Nat × Nat) (i : Nat) :
    Nat × Nat × Nat × Nat × Nat × Nat × Nat × Nat :=
  let (a, b, c, d, e, f, g, h) := st
  let S1 := rotr32 e 6 ^^^ rotr32 e 11 ^^^ rotr32 e 25
  let ch := e &&& f ^^^ not32 e &&& g
  let t1 := (h + S1 + ch + sha256K.getD i 0 + w.getD i 0) % 4294967296
  let S0 := rotr32 a 2 ^^^ rotr32 a 13 ^^^ rotr32 a 22
  let mj := a &&& b ^^^ a &&& c ^^^ b &&& c
  let t2 := (S0 + mj) % 4294967296
  ((t1 + t2) % 4294967296, a, b, c, (d + t1) % 4294967296, e, f, g)

/-- SHA-256 compression of one 64-byte block into the running state. -/
def sha256block (st : Nat × Nat × Nat × Nat × Nat × Nat × Nat × Nat) (block : List Nat) :
    Nat × Nat × Nat × Nat × Nat × Nat × Nat × Nat :=
  let w16 := (List.range 16).map fun j =>
    block.getD (4 * j) 0 * 16777216 + block.getD (4 * j + 1) 0 * 65536 +
      block.getD (4 * j + 2) 0 * 256 + block.getD (4 * j + 3) 0
  let w := sha256extend 48 w16
  let (a0, b0, c0, d0, e0, f0, g0, h0) := st
  let (a, b, c, d, e, f, g, h) := (List.range 64).foldl (sha256step w) st
  ((a0 + a) % 4294967296, (b0 + b) % 4294967296, (c0 + c) % 4294967296, (d0 + d) % 4294967296,
   (e0 + e) % 4294967296, (f0 + f) % 4294967296, (g0 + g) % 4294967296, (h0 + h) % 4294967296)

/-- The four big-endian bytes of a 32-bit word. -/
def be32bytes (w : Nat) : List Nat := [w / 16777216 % 256, w / 65536 % 256, w / 256 % 256, w % 256]

/-- Model of `hashlib.sha256(msg).hexdigest()`: the lowercase-hex SHA-256 digest of a
byte sequence. -/
def sha256hex (msg : List Nat) : Str :=
  let padded := mdPad false msg
  let st := (List.range (padded.length / 64)).foldl
    (fun st bi => sha256block st ((padded.drop (64 * bi)).take 64))
    (1779033703, 3144134277, 1013904242, 2773480762, 1359893119, 2600822924, 528734635, 1541459225)
  let (a, b, c, d, e, f, g, h) := st
  bytesHex (be32bytes a ++ be32bytes b ++ be32bytes c ++ be32bytes d ++
    be32bytes e ++ be32bytes f ++ be32bytes g ++ be32bytes h)

/-! ### Embedded tool functions from `src/server.py` -/

/-- Result of `payme_generate_checkout_url` (`src/server.py:131-140`). -/
structure PaymeCheckoutResult where
  success : Bool
  payment_url : Str
  environment : Str
  amount_uzs : ℚ
  amount_tiyin : ℤ
  order_id : Str
  encoded_params : Str
  instructions : Str
  deriving Repr, DecidableEq

/-- Embedding of `payme_generate_checkout_url` (`src/server.py:72-140`): converts the
amount to tiyin with `int(amount * 100)`, builds
`m=<merchant_id>;ac.order_id=<order_id>;a=<tiyin>;c=<return_url>`,
base64-encodes its UTF-8 bytes, and appends that to the environment's
checkout base URL. -/
def payme_generate_checkout_url (merchant_id : Str) (amount : ℚ) (order_id : Str)
    (return_url : Str) (is_production : Bool) : PaymeCheckoutResult :=
  let amount_in_tiyin : ℤ := pyInt (amount * 100)
  let account := str "order_id=" ++ order_id
  let params := str "m=" ++ merchant_id ++ str ";ac." ++ account ++
    str ";a=" ++ intStr amount_in_tiyin ++ str ";c=" ++ return_url
  let encoded_params := b64encode (utf8encode params)
  let checkout_base_url :=
    if is_production then str "https://checkout.paycom.uz"
    else str "https://checkout.test.paycom.uz"
  let payment_url := checkout_base_url ++ str "/" ++ encoded_params
  { success := true
    payment_url := payment_url
    environment := if is_production then str "production" else str "test"
    amount_uzs := amount
    amount_tiyin := amount_in_tiyin
    order_id := order_id
    encoded_params := encoded_params
    instructions := str "Redirect user to this URL to complete payment" }

/-- Result of `payme_verify_webhook_auth` (`src/server.py:176-197`): the three
return-dictionary shapes share the `valid` key; `reason` is present in the
wrong-scheme and exception branches, `decoded_auth`/`message` in the main
branch. -/
structure PaymeAuthResult where
  valid : Bool
  reason : Option Str
  decoded_auth : Option Str
  message : Option Str
  deriving Repr, DecidableEq

/-- The wrong-scheme reason text (`src/server.py:178`). -/
def paymeWrongSchemeMsg : Str := str "Authorization must use Basic authentication"

/-- The exception-branch reason (`src/server.py:197`); in the source the
Python exception's text is appended after this prefix, which is not
modelled. -/
def paymeDecodeErrorMsg : Str := str "Error verifying authorization: "

/-- Token extraction `authorization_header.split(" ")[1]`
(`src/server.py:181`); only reached when the header starts with
`"Basic "`, so index 1 exists. -/
def paymeToken (authorization_header : Str) : Str :=
  (splitSpace authorization_header).getD 1 []

/-- Embedding of `payme_verify_webhook_auth` (`src/server.py:144-197`): checks the
`"Basic "` prefix, base64-decodes the token, UTF-8-decodes the bytes, and
tests whether the merchant key occurs in the decoded string; any decoding
exception is caught and reported as an invalid result. -/
def payme_verify_webhook_auth (authorization_header : Str) (merchant_key : Str) :
    PaymeAuthResult :=
  if (str "Basic ").isPrefixOf authorization_header = false then
    { valid := false, reason := some paymeWrongSchemeMsg,
      decoded_auth := none, message := none }
  else
    match b64decode (paymeToken authorization_header) with
    | none =>
      { valid := false, reason := some paymeDecodeErrorMsg,
        decoded_auth := none, message := none }
    | some bs =>
      match utf8decode bs with
      | none =>
        { valid := false, reason := some paymeDecodeErrorMsg,
          decoded_auth := none, message := none }
      | some decoded =>
        let is_valid := strContains decoded merchant_key
        { valid := is_valid
          reason := none
          decoded_auth := some (if is_valid then decoded else str "[hidden]")
          message := some (if is_valid then str "Valid Payme webhook authentication"
            else str "Invalid merchant key") }

/-- Result of `click_generate_invoice_url` (`src/server.py:367-374`). -/
structure ClickInvoiceResult where
  success : Bool
  invoice_url : Str
  environment : Str
  amount : Str
  transaction_param : Str
  instructions : Str
  deriving Repr, DecidableEq

/-- Embedding of `click_generate_invoice_url` (`src/server.py:300-374`): joins the
insertion-ordered query parameters with `&` after the fixed endpoint (the
source's conditional picks the same literal for both environments).  The
`amount` argument is modelled by its rendered string (the source declares
`amount: float` and formats it with an f-string; the spec leaves the float
rendering to the caller-supplied text).  `merchant_user_id` is appended only
when truthy: a Python `Optional[str]` is falsy when `None` or empty. -/
def click_generate_invoice_url (service_id merchant_id : Str) (amount : Str)
    (transaction_param return_url : Str) (merchant_user_id : Option Str)
    (is_production : Bool) : ClickInvoiceResult :=
  let base_url :=
    if is_production then str "https://my.click.uz/services/pay"
    else str "https://my.click.uz/services/pay"
  let params : List (Str × Str) :=
    [(str "service_id", service_id), (str "merchant_id", merchant_id),
     (str "amount", amount), (str "transaction_param", transaction_param),
     (str "return_url", return_url)]
  let params :=
    match merchant_user_id with
    | some m => if m.isEmpty then params else params ++ [(str "merchant_user_id", m)]
    | none => params
  let query_string := List.intercalate (str "&") (params.map fun kv => kv.1 ++ str "=" ++ kv.2)
  let invoice_url := base_url ++ str "?" ++ query_string
  { success := true
    invoice_url := invoice_url
    environment := if is_production then str "production" else str "test"
    amount := amount
    transaction_param := transaction_param
    instructions := str "Redirect user to this URL to complete Click payment" }

/-- Result of `click_verify_webhook_signature` (`src/server.py:431-440`). -/
structure ClickVerifyResult where
  valid : Bool
  expected_signature : Str
  received_signature : Str
  message : Str
  deriving Repr, DecidableEq

/-- Embedding of `click_verify_webhook_signature` (`src/server.py:378-440`): concatenates
the seven fields without separators, MD5-hashes the UTF-8 bytes, and compares
the lowercase-hex digest with the received signature.  The `amount` argument
is modelled by its rendered string (the source formats it with an f-string,
so a caller-supplied string passes through verbatim); `action` is an `int`
rendered in decimal. -/
def click_verify_webhook_signature (click_trans_id service_id secret_key merchant_trans_id : Str)
    (amount : Str) (action : ℤ) (sign_time : Str) (received_sign_string : Str) :
    ClickVerifyResult :=
  let sign_string := click_trans_id ++ service_id ++ secret_key ++ merchant_trans_id ++
    amount ++ intStr action ++ sign_time
  let expected_signature := md5hex (utf8encode sign_string)
  let is_valid := expected_signature = received_sign_string
  { valid := is_valid
    expected_signature := expected_signature
    received_signature := received_sign_string
    message := if is_valid then str "Signature is valid"
      else str "Invalid signature - potential security issue" }

/-- Result of `octo_verify_webhook_signature` (`src/server.py:656-661`). -/
structure OctoVerifyResult where
  valid : Bool
  expected_signature : Str
  received_signature : Str
  message : Str
  deriving Repr, DecidableEq

/-- Embedding of `octo_verify_webhook_signature` (`src/server.py:624-661`): concatenates
`octo_payment_uuid`, `status` and the secret without separators, SHA-256
hashes the UTF-8 bytes, and compares the lowercase-hex digest with the
received signature. -/
def octo_verify_webhook_signature (octo_payment_uuid status received_signature secret_key : Str) :
    OctoVerifyResult :=
  let sign_string := octo_payment_uuid ++ status ++ secret_key
  let expected_signature := sha256hex (utf8encode sign_string)
  let is_valid := expected_signature = received_signature
  { valid := is_valid
    expected_signature := expected_signature
    received_signature := received_signature
    message := if is_valid then str "Valid Octo webhook" else str "Invalid signature" }

/-! ### Lemmas about the string primitives -/

/-- Splitting never returns an empty list of pieces. -/
theorem splitSpace_ne_nil (l : Str) : splitSpace l ≠ [] := by
  induction l with
  | nil => simp [splitSpace]
  | cons c rest ih =>
    rw [splitSpace]
    by_cases hc : c = ' '
    · simp [hc]
    · simp only [if_neg hc]
      cases h : splitSpace rest with
      | nil => simp
      | cons g gs => simp

/-- A string without spaces splits into the single piece it is. -/
theorem splitSpace_nospace (l : Str) (h : ∀ c ∈ l, c ≠ ' ') : splitSpace l = [l] := by
  induction l with
  | nil => rfl
  | cons c rest ih =>
    rw [splitSpace, if_neg (h c (by simp))]
    rw [ih fun c hc => h c (by simp [hc])]

/-- Splitting a `"Basic <token>"` header whose token holds no space yields
exactly the scheme word and the token, so index 1 is the token. -/
theorem paymeToken_basic (token : Str) (h : ∀ c ∈ token, c ≠ ' ') :
    paymeToken (str "Basic " ++ token) = token := by
  have h1 : splitSpace token = [token] := splitSpace_nospace token h
  have h2 : splitSpace (' ' :: token) = [] :: [token] := by
    rw [splitSpace, if_pos rfl, h1]
  have h3 : splitSpace ('c' :: ' ' :: token) = ['c'] :: [token] := by
    rw [splitSpace, if_neg (by decide), h2]
  have h4 : splitSpace ('i' :: 'c' :: ' ' :: token) = ['i', 'c'] :: [token] := by
    rw [splitSpace, if_neg (by decide), h3]
  have h5 : splitSpace ('s' :: 'i' :: 'c' :: ' ' :: token) = ['s', 'i', 'c'] :: [token] := by
    rw [splitSpace, if_neg (by decide), h4]
  have h6 : splitSpace ('a' :: 's' :: 'i' :: 'c' :: ' ' :: token) =
      ['a', 's', 'i', 'c'] :: [token] := by
    rw [splitSpace, if_neg (by decide), h5]
  have h7 : splitSpace ('B' :: 'a' :: 's' :: 'i' :: 'c' :: ' ' :: token) =
      ['B', 'a', 's', 'i', 'c'] :: [token] := by
    rw [splitSpace, if_neg (by decide), h6]
  show (splitSpace ('B' :: 'a' :: 's' :: 'i' :: 'c' :: ' ' :: token)).getD 1 [] = token
  rw [h7]
  rfl

/-- Agreement of `strContains` with the contiguous-substring relation. -/
theorem strContains_iff (hay needle : Str) : strContains hay needle = true ↔ needle <:+: hay := by
  induction hay with
  | nil =>
    rw [strContains]
    simp
  | cons c t ih =>
    rw [strContains]
    simp only [Bool.or_eq_true, List.isPrefixOf_iff_prefix, ih]
    exact List.infix_cons_iff.symm

/-- The empty string is contained in every string. -/
theorem strContains_nil (hay : Str) : strContains hay [] = true := by
  rw [strContains_iff]
  exact List.nil_infix

/-! ### Lemmas about base64 -/

/-- Every alphabet character decodes back to its 6-bit value. -/
theorem b64val_chr : ∀ n, n < 64 → b64val (b64chr n) = some n := by decide

/-- Alphabet characters are not the padding character. -/
theorem b64chr_ne_pad : ∀ n, n < 64 → b64chr n ≠ '=' := by decide

/-- Alphabet characters are ASCII. -/
theorem b64chr_ascii : ∀ n, n < 64 → (128 ≤ (b64chr n).toNat) = False := by decide

/-- Encoded output is ASCII, so the decoder's ASCII pre-check passes. -/
theorem b64encode_ascii (bs : List Nat) (h : ∀ b ∈ bs, b < 256) :
    (b64encode bs).any (fun c => 128 ≤ c.toNat) = false := by
  induction bs using b64encode.induct with
  | case1 => rfl
  | case2 a =>
    have ha : a < 256 := h a (by simp)
    rw [b64encode]
    simp [b64chr_ascii _ (by omega : a / 4 < 64), b64chr_ascii _ (by omega : a % 4 * 16 < 64)]
  | case3 a b =>
    have ha : a < 256 := h a (by simp)
    have hb : b < 256 := h b (by simp)
    rw [b64encode]
    simp [b64chr_ascii _ (by omega : a / 4 < 64),
      b64chr_ascii _ (by omega : a % 4 * 16 + b / 16 < 64),
      b64chr_ascii _ (by omega : b % 16 * 4 < 64)]
  | case4 a b c rest ih =>
    have ha : a < 256 := h a (by simp)
    have hb : b < 256 := h b (by simp)
    have hc : c < 256 := h c (by simp)
    rw [b64encode]
    simp [b64chr_ascii _ (by omega : a / 4 < 64),
      b64chr_ascii _ (by omega : a % 4 * 16 + b / 16 < 64),
      b64chr_ascii _ (by omega : b % 16 * 4 + c / 64 < 64),
      b64chr_ascii _ (by omega : c % 64 < 64),
      ih fun x hx => h x (by simp [hx])]

/-- Running the decoding state machine over an encoding appends the encoded
bytes to the output accumulator. -/
theorem b64loop_encode (bs : List Nat) (h : ∀ b ∈ bs, b < 256) :
    ∀ acc, b64loop (b64encode bs) 0 0 0 acc = some (acc ++ bs) := by
  induction bs using b64encode.induct with
  | case1 =>
    intro acc
    simp [b64encode, b64loop]
  | case2 a =>
    intro acc
    have ha : a < 256 := h a (by simp)
    rw [b64encode]
    simp [b64loop, b64chr_ne_pad _ (by omega : a / 4 < 64),
      b64chr_ne_pad _ (by omega : a % 4 * 16 < 64),
      b64val_chr _ (by omega : a / 4 < 64), b64val_chr _ (by omega : a % 4 * 16 < 64)]
    omega
  | case3 a b =>
    intro acc
    have ha : a < 256 := h a (by simp)
    have hb : b < 256 := h b (by simp)
    rw [b64encode]
    simp [b64loop, b64chr_ne_pad _ (by omega : a / 4 < 64),
      b64chr_ne_pad _ (by omega : a % 4 * 16 + b / 16 < 64),
      b64chr_ne_pad _ (by omega : b % 16 * 4 < 64),
      b64val_chr _ (by omega : a / 4 < 64),
      b64val_chr _ (by omega : a % 4 * 16 + b / 16 < 64),
      b64val_chr _ (by omega : b % 16 * 4 < 64)]
    constructor
    · omega
    · omega
  | case4 a b c rest ih =>
    intro acc
    have ha : a < 256 := h a (by simp)
    have hb : b < 256 := h b (by simp)
    have hc : c < 256 := h c (by simp)
    have e1 : a / 4 * 4 + (a % 4 * 16 + b / 16) / 16 = a := by omega
    have e2 : (a % 4 * 16 + b / 16) % 16 * 16 + (b % 16 * 4 + c / 64) / 4 = b := by omega
    have e3 : (b % 16 * 4 + c / 64) % 4 * 64 + c % 64 = c := by omega
    have ih' := ih (fun x hx => h x (by simp [hx])) (acc ++ [a, b, c])
    rw [b64encode]
    simp only [b64loop, b64chr_ne_pad _ (by omega : a / 4 < 64),
      b64chr_ne_pad _ (by omega : a % 4 * 16 + b / 16 < 64),
      b64chr_ne_pad _ (by omega : b % 16 * 4 + c / 64 < 64),
      b64chr_ne_pad _ (by omega : c % 64 < 64),
      b64val_chr _ (by omega : a / 4 < 64),
      b64val_chr _ (by omega : a % 4 * 16 + b / 16 < 64),
      b64val_chr _ (by omega : b % 16 * 4 + c / 64 < 64),
      b64val_chr _ (by omega : c % 64 < 64)]
    simp only [e1, e2, e3]
    simp [ih', List.append_assoc]

/-- Base64 round-trip: decoding an encoding recovers the bytes. -/
theorem b64decode_encode (bs : List Nat) (h : ∀ b ∈ bs, b < 256) :
    b64decode (b64encode bs) = some bs := by
  rw [b64decode, if_neg (by rw [b64encode_ascii bs h]; simp), b64loop_encode bs h []]
  rw [List.nil_append]

/-- Faithfulness vectors for the decoder, matching CPython
`base64.b64decode` on padding-only input, excess padding, data after a
terminating pad sequence, a non-ASCII argument, and dangling partial
quads. -/
theorem b64decode_testvec :
    b64decode (str "====") = some [] ∧
    b64decode (str "YQ===") = some [97] ∧
    b64decode (str "YQ==YQ==") = some [97] ∧
    b64decode (str "é") = none ∧
    b64decode (str "YQ=") = none ∧
    b64decode (str "Y") = none ∧
    b64decode (str "Y=Q=") = none ∧
    b64decode (str "Y=WJ=") = some [97, 98] := by decide

/-! ### Lemmas about UTF-8 -/

/-- Unfolding the decoder on an ASCII byte. -/
theorem utf8decode_one (b : Nat) (hb : b < 0x80) (rest : List Nat) :
    utf8decode (b :: rest) = (utf8decode rest).map (Char.ofNat b :: ·) := by
  match rest with
  | [] =>
    conv_lhs => rw [utf8decode]
    rw [if_pos hb]
    rfl
  | [c] =>
    conv_lhs => rw [utf8decode]
    rw [if_pos hb]
  | [c, d] =>
    conv_lhs => rw [utf8decode]
    rw [if_pos hb]
  | c :: d :: e :: t =>
    conv_lhs => rw [utf8decode]
    rw [if_pos hb]

/-- Unfolding the decoder on a well-formed two-byte sequence. -/
theorem utf8decode_two (b1 b2 : Nat) (rest : List Nat) (h1 : 0xC2 ≤ b1) (h2 : b1 < 0xE0)
    (h3 : 0x80 ≤ b2) (h4 : b2 < 0xC0) :
    utf8decode (b1 :: b2 :: rest) =
      (utf8decode rest).map (Char.ofNat ((b1 - 0xC0) * 64 + (b2 - 0x80)) :: ·) := by
  match rest with
  | [] =>
    conv_lhs => rw [utf8decode]
    rw [if_neg (by omega), if_neg (by omega), if_pos h2, if_pos ⟨h3, h4⟩]
    rfl
  | [c] =>
    conv_lhs => rw [utf8decode]
    rw [if_neg (by omega), if_neg (by omega), if_pos h2, if_pos ⟨h3, h4⟩]
  | c :: d :: t =>
    conv_lhs => rw [utf8decode]
    rw [if_neg (by omega), if_neg (by omega), if_pos h2, if_pos ⟨h3, h4⟩]

/-- Unfolding the decoder on a well-formed three-byte sequence. -/
theorem utf8decode_three (b1 b2 b3 : Nat) (rest : List Nat) (h1 : 0xE0 ≤ b1) (h2 : b1 < 0xF0)
    (h3 : 0x80 ≤ b2) (h4 : b2 < 0xC0) (h5 : 0x80 ≤ b3) (h6 : b3 < 0xC0)
    (h7 : 0x800 ≤ (b1 - 0xE0) * 4096 + (b2 - 0x80) * 64 + (b3 - 0x80))
    (h8 : ¬(0xD800 ≤ (b1 - 0xE0) * 4096 + (b2 - 0x80) * 64 + (b3 - 0x80) ∧
      (b1 - 0xE0) * 4096 + (b2 - 0x80) * 64 + (b3 - 0x80) < 0xE000)) :
    utf8decode (b1 :: b2 :: b3 :: rest) =
      (utf8decode rest).map
        (Char.ofNat ((b1 - 0xE0) * 4096 + (b2 - 0x80) * 64 + (b3 - 0x80)) :: ·) := by
  match rest with
  | [] =>
    conv_lhs => rw [utf8decode]
    rw [if_neg (by omega), if_neg (by omega), if_neg (by omega), if_pos h2,
      if_pos ⟨⟨h3, h4⟩, ⟨h5, h6⟩, h7, h8⟩]
    rfl
  | c :: t =>
    conv_lhs => rw [utf8decode]
    rw [if_neg (by omega), if_neg (by omega), if_neg (by omega), if_pos h2,
      if_pos ⟨⟨h3, h4⟩, ⟨h5, h6⟩, h7, h8⟩]

/-- Unfolding the decoder on a well-formed four-byte sequence. -/
theorem utf8decode_four (b1 b2 b3 b4 : Nat) (rest : List Nat) (h1 : 0xF0 ≤ b1) (h2 : b1 < 0xF5)
    (h3 : 0x80 ≤ b2) (h4 : b2 < 0xC0) (h5 : 0x80 ≤ b3) (h6 : b3 < 0xC0)
    (h7 : 0x80 ≤ b4) (h8 : b4 < 0xC0)
    (h9 : 0x10000 ≤ (b1 - 0xF0) * 262144 + (b2 - 0x80) * 4096 + (b3 - 0x80) * 64 + (b4 - 0x80))
    (h10 : (b1 - 0xF0) * 262144 + (b2 - 0x80) * 4096 + (b3 - 0x80) * 64 + (b4 - 0x80)
      < 0x110000) :
    utf8decode (b1 :: b2 :: b3 :: b4 :: rest) =
      (utf8decode rest).map
        (Char.ofNat
          ((b1 - 0xF0) * 262144 + (b2 - 0x80) * 4096 + (b3 - 0x80) * 64 + (b4 - 0x80)) :: ·) := by
  conv_lhs => rw [utf8decode]
  rw [if_neg (by omega), if_neg (by omega), if_neg (by omega), if_neg (by omega), if_pos h2,
    if_pos ⟨⟨h3, h4⟩, ⟨h5, h6⟩, ⟨h7, h8⟩, h9, h10⟩]

/-- The encoder emits bytes. -/
theorem utf8char_lt (c : Char) : ∀ b ∈ utf8char c, b < 256 := by
  have hval : c.toNat < 0xD800 ∨ (0xDFFF < c.toNat ∧ c.toNat < 0x110000) := c.valid
  intro b hb
  rw [utf8char] at hb
  by_cases h1 : c.toNat < 0x80
  · simp [h1] at hb
    omega
  · by_cases h2 : c.toNat < 0x800
    · simp [h1, h2] at hb
      rcases hb with rfl | rfl <;> omega
    · by_cases h3 : c.toNat < 0x10000
      · simp [h1, h2, h3] at hb
        rcases hb with rfl | rfl | rfl <;> omega
      · simp [h1, h2, h3] at hb
        rcases hb with rfl | rfl | rfl | rfl <;> omega

/-- Encoded strings consist of bytes. -/
theorem utf8encode_lt (s : Str) : ∀ b ∈ utf8encode s, b < 256 := by
  intro b hb
  rw [utf8encode, List.mem_flatMap] at hb
  obtain ⟨c, _, hbc⟩ := hb
  exact utf8char_lt c b hbc

/-- Decoding the encoding of one character prepends it. -/
theorem utf8decode_char_append (c : Char) (bs : List Nat) :
    utf8decode (utf8char c ++ bs) = (utf8decode bs).map (c :: ·) := by
  have hval : c.toNat < 0xD800 ∨ (0xDFFF < c.toNat ∧ c.toNat < 0x110000) := c.valid
  rw [utf8char]
  by_cases h1 : c.toNat < 0x80
  · rw [if_pos h1, List.cons_append, List.nil_append, utf8decode_one _ h1,
      Char.ofNat_toNat]
  · by_cases h2 : c.toNat < 0x800
    · rw [if_neg h1, if_pos h2, List.cons_append, List.cons_append, List.nil_append,
        utf8decode_two _ _ _ (by omega) (by omega) (by omega) (by omega)]
      have hv : (0xC0 + c.toNat / 64 - 0xC0) * 64 + (0x80 + c.toNat % 64 - 0x80) = c.toNat := by
        omega
      rw [hv, Char.ofNat_toNat]
    · by_cases h3 : c.toNat < 0x10000
      · rw [if_neg h1, if_neg h2, if_pos h3, List.cons_append, List.cons_append,
          List.cons_append, List.nil_append,
          utf8decode_three _ _ _ _ (by omega) (by omega) (by omega) (by omega) (by omega)
            (by omega) (by omega) (by omega)]
        have hv : (0xE0 + c.toNat / 4096 - 0xE0) * 4096 + (0x80 + c.toNat / 64 % 64 - 0x80) * 64 +
            (0x80 + c.toNat % 64 - 0x80) = c.toNat := by omega
        rw [hv, Char.ofNat_toNat]
      · rw [if_neg h1, if_neg h2, if_neg h3, List.cons_append, List.cons_append,
          List.cons_append, List.cons_append, List.nil_append,
          utf8decode_four _ _ _ _ _ (by omega) (by omega) (by omega) (by omega) (by omega)
            (by omega) (by omega) (by omega) (by omega) (by omega)]
        have hv : (0xF0 + c.toNat / 262144 - 0xF0) * 262144 +
            (0x80 + c.toNat / 4096 % 64 - 0x80) * 4096 +
            (0x80 + c.toNat / 64 % 64 - 0x80) * 64 + (0x80 + c.toNat % 64 - 0x80) = c.toNat := by
          omega
        rw [hv, Char.ofNat_toNat]

/-- UTF-8 round-trip: decoding an encoding recovers the string. -/
theorem utf8decode_encode (s : Str) : utf8decode (utf8encode s) = some s := by
  induction s with
  | nil => rfl
  | cons c s ih =>
    rw [utf8encode, List.flatMap_cons, utf8decode_char_append]
    show (utf8decode (utf8encode s)).map (c :: ·) = some (c :: s)
    rw [ih]
    rfl

/-! ### Hash test vectors (cross-checks of the MD5 and SHA-256 models) -/

set_option maxRecDepth 100000

/-- RFC 1321 test vector. -/
theorem md5hex_testvec_abc :
    md5hex (utf8encode (str "abc")) = str "900150983cd24fb0d6963f7d28e17f72" := by decide

/-- RFC 1321 test vector. -/
theorem md5hex_testvec_empty :
    md5hex (utf8encode (str "")) = str "d41d8cd98f00b204e9800998ecf8427e" := by decide

/-- FIPS 180-4 test vector. -/
theorem sha256hex_testvec_abc :
    sha256hex (utf8encode (str "abc")) =
      str "ba7816bf8f01cfea414140de5dae2223b00361a396177a9cb410ff61f20015ad" := by decide

/-! ### Shared facts about `payme_verify_webhook_auth` -/

/-- On a `"Basic <token>"` header whose token decodes, the verifier's result
is determined by the substring test. -/
theorem payme_verify_basic_result (token merchant_key : Str) (bs : List Nat) (d : Str)
    (hs : ∀ c ∈ token, c ≠ ' ') (hb : b64decode token = some bs)
    (hu : utf8decode bs = some d) :
    payme_verify_webhook_auth (str "Basic " ++ token) merchant_key =
      { valid := strContains d merchant_key
        reason := none
        decoded_auth := some (if strContains d merchant_key then d else str "[hidden]")
        message := some (if strContains d merchant_key then
          str "Valid Payme webhook authentication" else str "Invalid merchant key") } := by
  have hpre : (str "Basic ").isPrefixOf (str "Basic " ++ token) = true := by
    rw [ List.isPrefixOf_iff_prefix]
    exact List.prefix_append _ _
  rw [payme_verify_webhook_auth, if_neg (by rw [hpre]; simp), paymeToken_basic token hs, hb]
  simp only [hu]

/-! ### Claim theorems -/

/-- C4: `payme_verify_webhook_auth` always returns a structured result and
never raises: a header that does not start with the literal `"Basic "` yields
`valid = false` with the wrong-scheme reason, and a token whose base64 or
UTF-8 decoding fails yields `valid = false` with the decode-error reason
instead of a propagated exception. -/
theorem payme_verify_webhook_auth_error_paths :
    ∀ (authorization_header merchant_key : Str),
      ((str "Basic ").isPrefixOf authorization_header = false →
        payme_verify_webhook_auth authorization_header merchant_key =
          { valid := false, reason := some paymeWrongSchemeMsg,
            decoded_auth := none, message := none }) ∧
      ((str "Basic ").isPrefixOf authorization_header = true →
        (b64decode (paymeToken authorization_header)).bind utf8decode = none →
        payme_verify_webhook_auth authorization_header merchant_key =
          { valid := false, reason := some paymeDecodeErrorMsg,
            decoded_auth := none, message := none }) := by
  intro h k
  constructor
  · intro hpre
    rw [payme_verify_webhook_auth, if_pos hpre]
  · intro hpre hdec
    rw [payme_verify_webhook_auth, if_neg (by rw [hpre]; simp)]
    cases hb : b64decode (paymeToken h) with
    | none => rfl
    | some bs =>
      rw [hb] at hdec
      cases hu : utf8decode bs with
      | none => simp only [hu]
      | some d =>
        rw [Option.some_bind, hu] at hdec
        exact absurd hdec (by simp)

/-- C4 witness: a `"Digest"` header takes the wrong-scheme branch, and
`"Basic a"` (one stray base64 character) takes the decode-error branch. -/
theorem payme_verify_webhook_auth_error_paths_witness :
    payme_verify_webhook_auth (str "Digest abc") (str "secret") =
        { valid := false, reason := some paymeWrongSchemeMsg,
          decoded_auth := none, message := none } ∧
      payme_verify_webhook_auth (str "Basic a") (str "secret") =
        { valid := false, reason := some paymeDecodeErrorMsg,
          decoded_auth := none, message := none } :=
  ⟨(payme_verify_webhook_auth_error_paths (str "Digest abc") (str "secret")).1 (by decide),
   (payme_verify_webhook_auth_error_paths (str "Basic a") (str "secret")).2
     (by decide) (by decide)⟩

/-- C5: on a well-formed `"Basic <token>"` header whose token decodes to the
UTF-8 string `d`, verification succeeds exactly when the merchant key occurs
in `d` as a substring; on success the decoded string is echoed, on failure it
is replaced by `"[hidden]"`. -/
theorem payme_verify_webhook_auth_substring_rule :
    ∀ (token merchant_key : Str) (bs : List Nat) (d : Str), (∀ c ∈ token, c ≠ ' ') →
      b64decode token = some bs → utf8decode bs = some d →
      ((payme_verify_webhook_auth (str "Basic " ++ token) merchant_key).valid = true ↔
        merchant_key <:+: d) ∧
      (merchant_key <:+: d →
        (payme_verify_webhook_auth (str "Basic " ++ token) merchant_key).decoded_auth =
          some d) ∧
      (¬merchant_key <:+: d →
        (payme_verify_webhook_auth (str "Basic " ++ token) merchant_key).decoded_auth =
          some (str "[hidden]")) := by
  intro token k bs d hs hb hu
  rw [payme_verify_basic_result token k bs d hs hb hu]
  refine ⟨strContains_iff d k, fun hsub => ?_, fun hsub => ?_⟩
  · simp [(strContains_iff d k).mpr hsub]
  · have : strContains d k = false := by
      rw [Bool.eq_false_iff]
      intro hc
      exact hsub ((strContains_iff d k).mp hc)
    simp [this]

/-- C5 witness: `"Basic bTprZXk="` decodes to `"m:key"`, which contains the
key `"key"`, so verification succeeds and echoes the decoded string. -/
theorem payme_verify_webhook_auth_substring_rule_witness :
    ((payme_verify_webhook_auth (str "Basic " ++ str "bTprZXk=") (str "key")).valid = true ↔
      str "key" <:+: str "m:key") ∧
    (str "key" <:+: str "m:key" →
      (payme_verify_webhook_auth (str "Basic " ++ str "bTprZXk=") (str "key")).decoded_auth =
        some (str "m:key")) ∧
    (¬str "key" <:+: str "m:key" →
      (payme_verify_webhook_auth (str "Basic " ++ str "bTprZXk=") (str "key")).decoded_auth =
        some (str "[hidden]")) :=
  payme_verify_webhook_auth_substring_rule (str "bTprZXk=") (str "key")
    [109, 58, 107, 101, 121] (str "m:key") (by decide) (by decide) (by decide)

/-- C9: with an empty merchant key, every well-formed `"Basic <token>"`
header whose token decodes to some UTF-8 string passes verification, because
the empty string is a substring of every decoded value. -/
theorem payme_verify_webhook_auth_empty_key :
    ∀ (token : Str) (bs : List Nat) (d : Str), (∀ c ∈ token, c ≠ ' ') →
      b64decode token = some bs → utf8decode bs = some d →
      (payme_verify_webhook_auth (str "Basic " ++ token) []).valid = true := by
  intro token bs d hs hb hu
  rw [payme_verify_basic_result token [] bs d hs hb hu]
  exact strContains_nil d

/-- C9 witness: `"Basic dXNlcjpwYXNz"` decodes to `"user:pass"` and passes
verification against the empty merchant key. -/
theorem payme_verify_webhook_auth_empty_key_witness :
    (payme_verify_webhook_auth (str "Basic " ++ str "dXNlcjpwYXNz") []).valid = true :=
  payme_verify_webhook_auth_empty_key (str "dXNlcjpwYXNz")
    [117, 115, 101, 114, 58, 112, 97, 115, 115] (str "user:pass")
    (by decide) (by decide) (by decide)

/-- C3: `click_verify_webhook_signature` hashes the separator-free
concatenation `click_trans_id ++ service_id ++ secret ++ merchant_trans_id ++
amount ++ action ++ sign_time` with MD5 rendered as lowercase hex, and in the
spec's concrete scenario (secret `"s3cret"`, amount rendered `"1000"`,
action `1`) the received digest `MD5("123456s3cretm1100012024-01-01")`
verifies as valid; that digest is `9eef0a099ab8ad0a4c92aee638a59962`. -/
theorem click_verify_webhook_signature_md5_scheme :
    (∀ (click_trans_id service_id secret_key merchant_trans_id amount : Str) (action : ℤ)
        (sign_time received : Str),
      (click_verify_webhook_signature click_trans_id service_id secret_key merchant_trans_id
          amount action sign_time received).expected_signature =
        md5hex (utf8encode (click_trans_id ++ service_id ++ secret_key ++ merchant_trans_id ++
          amount ++ intStr action ++ sign_time))) ∧
    (click_verify_webhook_signature (str "123") (str "456") (str "s3cret") (str "m1")
        (str "1000") 1 (str "2024-01-01")
        (md5hex (utf8encode (str "123456s3cretm1100012024-01-01")))).valid = true ∧
    (click_verify_webhook_signature (str "123") (str "456") (str "s3cret") (str "m1")
        (str "1000") 1 (str "2024-01-01")
        (md5hex (utf8encode (str "123456s3cretm1100012024-01-01")))).expected_signature =
      str "9eef0a099ab8ad0a4c92aee638a59962" := by
  refine ⟨fun _ _ _ _ _ _ _ _ => rfl, ?_, ?_⟩
  · decide
  · decide

/-- C6: `octo_verify_webhook_signature` accepts exactly the lowercase-hex
SHA-256 digest of `payment_uuid ++ status ++ secret`; the spec's concrete
scenario digest `SHA256("uuid-1succeededk") =
90186e48e54c2c3a8557466694ea979dca164bdc3f98702106b74d3a2a17b505` verifies
as valid, and flipping its first character yields `valid = false`. -/
theorem octo_verify_webhook_signature_sha256_scheme :
    (∀ octo_payment_uuid status received secret_key : Str,
      ((octo_verify_webhook_signature octo_payment_uuid status received
          secret_key).valid = true ↔
        received = sha256hex (utf8encode (octo_payment_uuid ++ status ++ secret_key)))) ∧
    (octo_verify_webhook_signature (str "uuid-1") (str "succeeded")
        (sha256hex (utf8encode (str "uuid-1succeededk"))) (str "k")).valid = true ∧
    sha256hex (utf8encode (str "uuid-1succeededk")) =
      str "90186e48e54c2c3a8557466694ea979dca164bdc3f98702106b74d3a2a17b505" ∧
    (octo_verify_webhook_signature (str "uuid-1") (str "succeeded")
        (str "00186e48e54c2c3a8557466694ea979dca164bdc3f98702106b74d3a2a17b505")
        (str "k")).valid = false := by
  refine ⟨fun u s r k => ?_, ?_, ?_, ?_⟩
  · rw [octo_verify_webhook_signature]
    simp [eq_comm]
  · decide
  · decide
  · decide

/-- C1 counterexample: at amount `0.375` (an exactly representable float
whose product with 100 is exactly `37.5`), the source's `int(amount * 100)`
truncates to 37 while the claimed `round(amount * 100)` gives 38 (Python's
round half to even), so the conversion is not `round`. -/
theorem payme_amount_not_round_cex :
    (payme_generate_checkout_url (str "68944508cab302211ad21b06") (3 / 8) (str "booking_123")
        (str "https://myapp.com/ok") false).amount_tiyin ≠ pyRound ((3 / 8 : ℚ) * 100) := by
  have hq : ((3 : ℚ) / 8) * 100 = 75 / 2 := by norm_num
  have hfl : ⌊(75 / 2 : ℚ)⌋ = 37 := by
    rw [Int.floor_eq_iff]
    constructor <;> norm_num
  show pyInt ((3 / 8 : ℚ) * 100) ≠ pyRound ((3 / 8 : ℚ) * 100)
  rw [hq, pyInt, pyRound, if_pos (by norm_num : (0 : ℚ) ≤ 75 / 2), hfl]
  rw [if_neg (by norm_num), if_neg (by norm_num), if_neg (by decide)]
  norm_num

/-- C1 amended: `payme_generate_checkout_url` converts the amount to minor
units by truncation `int(amount * 100)` — for non-negative amounts this is
`⌊amount * 100⌋` — and in the spec's concrete scenario (amount 50000.00,
test environment) it returns `amount_tiyin = 5000000` and a payment URL
with prefix `https://checkout.test.paycom.uz/`. -/
theorem payme_amount_truncation_and_scenario :
    (∀ (merchant_id : Str) (amount : ℚ) (order_id return_url : Str) (is_production : Bool),
      0 ≤ amount →
      (payme_generate_checkout_url merchant_id amount order_id return_url
          is_production).amount_tiyin = ⌊amount * 100⌋) ∧
    (payme_generate_checkout_url (str "68944508cab302211ad21b06") 50000 (str "booking_123")
        (str "https://myapp.com/ok") false).amount_tiyin = 5000000 ∧
    (str "https://checkout.test.paycom.uz/").isPrefixOf
      (payme_generate_checkout_url (str "68944508cab302211ad21b06") 50000 (str "booking_123")
        (str "https://myapp.com/ok") false).payment_url = true := by
  refine ⟨fun m a o r p ha => ?_, ?_, ?_⟩
  · show pyInt (a * 100) = ⌊a * 100⌋
    rw [pyInt, if_pos (by positivity)]
  · show pyInt ((50000 : ℚ) * 100) = 5000000
    rw [pyInt, if_pos (by norm_num), show ((50000 : ℚ) * 100) = ((5000000 : ℤ) : ℚ) by norm_num,
      Int.floor_intCast]
  · show (str "https://checkout.test.paycom.uz/").isPrefixOf
      (str "https://checkout.test.paycom.uz" ++ str "/" ++ _) = true
    rw [show str "https://checkout.test.paycom.uz" ++ str "/" =
      str "https://checkout.test.paycom.uz/" from rfl]
    rw [List.append_assoc, List.isPrefixOf_iff_prefix]
    exact List.prefix_append _ _

/-- C1 amended witness: amount 3 is non-negative and converts to
`⌊3 * 100⌋ = 300` tiyin. -/
theorem payme_amount_truncation_and_scenario_witness :
    0 ≤ (3 : ℚ) ∧
      (payme_generate_checkout_url (str "m") 3 (str "o") (str "u") false).amount_tiyin =
        ⌊(3 : ℚ) * 100⌋ :=
  ⟨by norm_num,
   payme_amount_truncation_and_scenario.1 (str "m") 3 (str "o") (str "u") false (by norm_num)⟩

/-- C2 counterexample: with amount 0 the function does not fail with an
invalid-argument error — it returns a success result (`success = true`). -/
theorem payme_zero_amount_success_cex :
    (payme_generate_checkout_url (str "68944508cab302211ad21b06") 0 (str "booking_123")
        (str "https://myapp.com/ok") false).success = true := rfl

/-- C2 amended: `payme_generate_checkout_url` performs no argument
validation: for every input — including amount 0 and empty `merchant_id` or
`order_id` — it returns `success = true`, and there is no error result. -/
theorem payme_no_validation :
    ∀ (merchant_id : Str) (amount : ℚ) (order_id return_url : Str) (is_production : Bool),
      (payme_generate_checkout_url merchant_id amount order_id return_url
        is_production).success = true :=
  fun _ _ _ _ _ => rfl

/-- C7: base64-decoding the `encoded_params` segment returned by
`payme_generate_checkout_url` and UTF-8-decoding the bytes yields exactly the
original parameter string
`m=<merchant_id>;ac.order_id=<order_id>;a=<amount_minor>;c=<return_url>`. -/
theorem payme_encoded_params_roundtrip :
    ∀ (merchant_id : Str) (amount : ℚ) (order_id return_url : Str) (is_production : Bool),
      (b64decode ((payme_generate_checkout_url merchant_id amount order_id return_url
          is_production).encoded_params)).bind utf8decode =
        some (str "m=" ++ merchant_id ++ str ";ac.order_id=" ++ order_id ++ str ";a=" ++
          intStr ((payme_generate_checkout_url merchant_id amount order_id return_url
            is_production).amount_tiyin) ++ str ";c=" ++ return_url) := by
  intro m a o r p
  show (b64decode (b64encode (utf8encode _))).bind utf8decode = _
  rw [b64decode_encode _ (utf8encode_lt _), Option.some_bind, utf8decode_encode]
  simp only [List.append_assoc]
  rfl

/-- C8: `click_generate_invoice_url` builds the invoice URL from the fixed
endpoint `https://my.click.uz/services/pay` (for both environments), a single
`?`, and `key=value` pairs joined with `&` in the exact order `service_id`,
`merchant_id`, `amount`, `transaction_param`, `return_url`, with
`merchant_user_id` appended last only when it is provided (non-empty) and
omitted entirely when absent. -/
theorem click_invoice_url_format :
    ∀ (service_id merchant_id amount transaction_param return_url : Str)
      (is_production : Bool),
      ((click_generate_invoice_url service_id merchant_id amount transaction_param return_url
          none is_production).invoice_url =
        str "https://my.click.uz/services/pay" ++ str "?" ++
          str "service_id" ++ str "=" ++ service_id ++ str "&" ++
          str "merchant_id" ++ str "=" ++ merchant_id ++ str "&" ++
          str "amount" ++ str "=" ++ amount ++ str "&" ++
          str "transaction_param" ++ str "=" ++ transaction_param ++ str "&" ++
          str "return_url" ++ str "=" ++ return_url) ∧
      (∀ merchant_user_id : Str, merchant_user_id ≠ [] →
        (click_generate_invoice_url service_id merchant_id amount transaction_param return_url
            (some merchant_user_id) is_production).invoice_url =
          str "https://my.click.uz/services/pay" ++ str "?" ++
            str "service_id" ++ str "=" ++ service_id ++ str "&" ++
            str "merchant_id" ++ str "=" ++ merchant_id ++ str "&" ++
            str "amount" ++ str "=" ++ amount ++ str "&" ++
            str "transaction_param" ++ str "=" ++ transaction_param ++ str "&" ++
            str "return_url" ++ str "=" ++ return_url ++ str "&" ++
            str "merchant_user_id" ++ str "=" ++ merchant_user_id) ∧
      (∀ merchant_user_id : Option Str,
        (click_generate_invoice_url service_id merchant_id amount transaction_param return_url
            merchant_user_id true).invoice_url =
          (click_generate_invoice_url service_id merchant_id amount transaction_param return_url
            merchant_user_id false).invoice_url) := by
  intro sid mid am tp ru p
  refine ⟨?_, fun m hm => ?_, fun muid => rfl⟩
  · simp [click_generate_invoice_url, List.intercalate, List.append_assoc]
  · cases m with
    | nil => exact absurd rfl hm
    | cons c t =>
      simp [click_generate_invoice_url, List.intercalate, List.append_assoc]

/-- C8 witness: a provided non-empty `merchant_user_id` is appended as the
last query parameter. -/
theorem click_invoice_url_format_witness :
    str "u1" ≠ ([] : Str) ∧
      (click_generate_invoice_url (str "12345") (str "67890") (str "150000.0")
          (str "booking_456") (str "https://myapp.com/cb") (some (str "u1"))
          false).invoice_url =
        str "https://my.click.uz/services/pay" ++ str "?" ++
          str "service_id" ++ str "=" ++ str "12345" ++ str "&" ++
          str "merchant_id" ++ str "=" ++ str "67890" ++ str "&" ++
          str "amount" ++ str "=" ++ str "150000.0" ++ str "&" ++
          str "transaction_param" ++ str "=" ++ str "booking_456" ++ str "&" ++
          str "return_url" ++ str "=" ++ str "https://myapp.com/cb" ++ str "&" ++
          str "merchant_user_id" ++ str "=" ++ str "u1" :=
  ⟨by decide,
   (click_invoice_url_format (str "12345") (str "67890") (str "150000.0") (str "booking_456")
     (str "https://myapp.com/cb") false).2.1 (str "u1") (by decide)⟩

/-- C10: passing `merchant_user_id` as the empty string behaves exactly like
omitting it — the truthiness test drops the parameter, so the URLs agree. -/
theorem click_invoice_empty_merchant_user_id :
    ∀ (service_id merchant_id amount transaction_param return_url : Str)
      (is_production : Bool),
      (click_generate_invoice_url service_id merchant_id amount transaction_param return_url
          (some []) is_production).invoice_url =
        (click_generate_invoice_url service_id merchant_id amount transaction_param return_url
          none is_production).invoice_url :=
  fun _ _ _ _ _ _ => rfl

/-- Faithfulness vectors for the verifier at the decoder's edge cases:
`"Basic YQ==="` really decodes to `"a"` and takes the substring branch;
`"Basic é"` fails the ASCII encoding inside `b64decode` and takes the
caught-exception branch; `"Basic ===="` decodes to the empty string, which
contains the empty merchant key. -/
theorem payme_verify_webhook_auth_edge_cases :
    (payme_verify_webhook_auth (str "Basic YQ===") (str "a")).valid = true ∧
    (payme_verify_webhook_auth (str "Basic é") (str "")).reason = some paymeDecodeErrorMsg ∧
    (payme_verify_webhook_auth (str "Basic é") (str "")).valid = false ∧
    (payme_verify_webhook_auth (str "Basic ====") []).valid = true := by decide
